import Mathlib

/-!
Verification of `src/block/memory_region.cc` (MLDB's zero-copy memory-region
serialization layer).

The C++ code is shallowly embedded:
* pointers become natural-number addresses into an abstract byte memory
  `mem : Nat → Nat`;
* `std::shared_ptr<void>` ownership handles become opaque `Nat` identifiers
  (two views share storage iff they carry the same identifier);
* fatal `ExcAssert` contract failures and thrown `AnnotatedException`s become
  `Option`/`Except` failure values; `AnnotatedException`'s integer status code
  is kept, since the spec distinguishes client-input (4xx) from other errors;
* `size_t` arithmetic is modelled on `Nat` with an explicit `% 2 ^ 64`
  where the C computation can wrap;
* the abstract backend of the structured serializer / reconstituter
  (`newEntry`, `getRegion`, `getStructure` are pure virtuals declared in the
  missing header) is modelled from the spec as a finite tree of named
  entries; the derived logic proved about is translated from the `.cc` file.
-/

namespace MLDB

/-! ## Region types (memory_region.cc lines 62-79, 99-137) -/

/-- FrozenMemoryRegion (lines 62-68): immutable view `(data_, length_, handle_)`.
`data` is the start address into the abstract byte memory, `handle` the opaque
shared-ownership token. -/
structure FrozenMemoryRegion where
  handle : Nat
  data : Nat
  length : Nat

/-- bytes visible through a region, given the abstract byte memory `mem`:
the `length` bytes starting at address `data`. -/
def regionBytes (mem : Nat → Nat) (r : FrozenMemoryRegion) : List Nat :=
  (List.range r.length).map (fun i => mem (r.data + i))

/-- FrozenMemoryRegion::range (lines 70-79).  The source asserts
`ExcAssertGreaterEqual(end, start)` then `ExcAssertLessEqual(end, length())`
(fatal contract errors, modelled as `none`) and returns
`FrozenMemoryRegion(handle_, data() + start, end - start)`.
`end` is a reserved word in Lean, so the second bound is named `stop`. -/
def FrozenMemoryRegion.range (r : FrozenMemoryRegion) (start stop : Nat) :
    Option FrozenMemoryRegion :=
  if start ≤ stop then
    if stop ≤ r.length then
      some ⟨r.handle, r.data + start, stop - start⟩
    else none
  else none

/-- MutableMemoryRegion (lines 99-123): writable view `(handle, data, length)`.
The `owner` back-pointer only dispatches `freeze` to the serializer; for the
heap backend that is `MemorySerializer::freeze` below. -/
structure MutableMemoryRegion where
  handle : Nat
  data : Nat
  length : Nat

/-- MemorySerializer::freeze (lines 233-238):
`return FrozenMemoryRegion(region.handle(), region.data(), region.length());`. -/
def MemorySerializer.freeze (region : MutableMemoryRegion) : FrozenMemoryRegion :=
  ⟨region.handle, region.data, region.length⟩

/-! ## Claim C1: FrozenMemoryRegion::range -/

/-- C1: `range(start, end)` succeeds iff `start ≤ end ≤ length`; on success the
returned region has the parent's handle (ownership shared, no copy), data
pointer `data + start`, length `end - start`, and its bytes are exactly the
parent's bytes `[start, end)`.  The embedding is pure, so the parent region is
unchanged by construction. -/
theorem range_C1 (mem : Nat → Nat) (r : FrozenMemoryRegion) (s e : Nat) :
    ((r.range s e).isSome ↔ (s ≤ e ∧ e ≤ r.length))
    ∧ (∀ r', r.range s e = some r' →
        r'.handle = r.handle
        ∧ r'.data = r.data + s
        ∧ r'.length = e - s
        ∧ regionBytes mem r' = ((regionBytes mem r).drop s).take (e - s)) := by
  constructor
  · unfold FrozenMemoryRegion.range
    split_ifs with h1 h2
    · simp [h1, h2]
    · simp; omega
    · simp; omega
  · intro r' h
    unfold FrozenMemoryRegion.range at h
    split_ifs at h with h1 h2
    injection h with h
    subst h
    refine ⟨rfl, rfl, rfl, ?_⟩
    apply List.ext_getElem
    · simp [regionBytes]
      omega
    · intro i hi1 hi2
      simp [regionBytes]
      congr 1
      omega

/-- concrete instantiation of `range_C1`: the region at address 100 of length 4
with handle 7, sliced to `[1, 3)`. -/
theorem range_C1_witness :
    (⟨7, 101, 2⟩ : FrozenMemoryRegion).handle
        = (⟨7, 100, 4⟩ : FrozenMemoryRegion).handle
    ∧ (⟨7, 101, 2⟩ : FrozenMemoryRegion).data
        = (⟨7, 100, 4⟩ : FrozenMemoryRegion).data + 1
    ∧ (⟨7, 101, 2⟩ : FrozenMemoryRegion).length = 3 - 1
    ∧ regionBytes (fun i => i) ⟨7, 101, 2⟩
        = ((regionBytes (fun i => i) ⟨7, 100, 4⟩).drop 1).take (3 - 1) :=
  (range_C1 (fun i => i) ⟨7, 100, 4⟩ 1 3).2 ⟨7, 101, 2⟩ rfl

/-! ## mapFile (memory_region.cc lines 140-194) -/

/-- cardinality of `size_t`: the C arithmetic on lines 170-171 is carried out
in 64-bit unsigned integers, i.e. modulo `2 ^ 64`. -/
def sizeTCard : Nat := 2 ^ 64

/-- line 170: `size_t mapOffset = startOffset & ~(page_size - 1);` — for a
power-of-two `page` (the source's `page_size`), clearing the low bits rounds
down to a page boundary: `x &&& ~~~(page - 1) = x - x % page`. -/
def pageDown (x page : Nat) : Nat := x - x % page

/-- line 171:
`size_t mapLength = (length - mapOffset + page_size - 1) & ~(page_size - 1);`
— `length` (a `ssize_t`) is converted to `size_t`, the subtraction and sums
wrap modulo `2 ^ 64`, and the final mask rounds down to a page boundary. -/
def mapLengthOf (len mapOffset page : Nat) : Nat :=
  let t := (len + (sizeTCard - mapOffset % sizeTCard) + page - 1) % sizeTCard
  t - t % page

/-- the page-aligned physical window `(mapOffset, mapLength)` that `mapFile`
hands to `mmap` (lines 170-178), for a resolved non-negative `len`. -/
def mapWindow (startOffset len page : Nat) : Nat × Nat :=
  (pageDown startOffset page, mapLengthOf len (pageDown startOffset page) page)

/-- kinds of failure `mapFile` can throw (as `AnnotatedException`s). -/
inductive MapErrKind where
  | unsupportedScheme
  | openFailed
  | statFailed
  | mmapFailed
deriving DecidableEq

/-- an `AnnotatedException`: its integer status code (400 = client-input
error, 500 = server-side error, as used across the file) plus which failure
site threw it. -/
structure MapError where
  code : Nat
  kind : MapErrKind
deriving DecidableEq

/-- Modelled from the spec: the external environment `mapFile` interacts with
(`Url`, `open`, `fstat`, `mmap` are collaborators outside this file).
`scheme` is `filename.scheme()`; `openOk` is whether `open` succeeds;
`statSize` is `some st_size` when `fstat` succeeds and `none` when it fails;
`mmapOk` is whether `mmap` returns other than `MAP_FAILED`; `base` is the
address `mmap` returns. -/
structure FileEnv where
  scheme : String
  openOk : Bool
  statSize : Option Nat
  mmapOk : Bool
  base : Nat

/-- lines 156-166: resolve the requested `ssize_t length`; the sentinel `-1`
means "use the file size from fstat", whose failure throws a 400 error.  A
non-negative `length` converts to `size_t` as `Int.toNat`. -/
def resolveLength (length : Int) (statSize : Option Nat) : Except MapError Nat :=
  if length = -1 then
    match statSize with
    | none => .error ⟨400, .statFailed⟩
    | some s => .ok s
  else .ok length.toNat

/-- mapFile (lines 140-194): check the scheme (throw 500 if not "file"), open
(throw 400 on failure), resolve the length (lines 156-166), compute the
page-aligned window (lines 170-171), mmap (throw 400 on `MAP_FAILED`), and
return a region whose data pointer is the mapping base advanced by
`startOffset % page_size` and whose length is the resolved `length`
(lines 187-193).  The returned handle is an opaque fresh token (the shared
deleter unmapping `mapLength` bytes and closing the fd). -/
def mapFile (env : FileEnv) (startOffset : Nat) (length : Int) (page : Nat) :
    Except MapError FrozenMemoryRegion :=
  if env.scheme ≠ "file" then
    .error ⟨500, .unsupportedScheme⟩
  else if env.openOk = false then
    .error ⟨400, .openFailed⟩
  else
    match resolveLength length env.statSize with
    | .error e => .error e
    | .ok len =>
      let mapOffset := pageDown startOffset page
      let mapLength := mapLengthOf len mapOffset page
      if env.mmapOk = false then
        .error ⟨400, .mmapFailed⟩
      else
        -- the handle is a fresh opaque token; its deleter owns the window
        -- `(mapOffset, mapLength)`, recorded here as the token's value so the
        -- embedding keeps what the deleter would unmap
        .ok ⟨mapOffset + mapLength, env.base + startOffset % page, len⟩

/-! ## Claim C2: the computed window does not cover the requested range -/

/-- C2 (code bug): the claim says the page-rounded window satisfies
`mapOffset + mapLength ≥ startOffset + length`.  It does not: at
`startOffset = 10`, `length = 4096`, `page_size = 4096` (file of 100000
bytes), `mapFile` succeeds and returns a 4096-byte region starting at mapping
offset 10, but the window is `(0, 4096)` — it ends at 4096, short of the
requested logical end 4106, because line 171 computes
`length - mapOffset` instead of `startOffset + length - mapOffset`. -/
theorem mapFile_window_gap :
    mapFile ⟨"file", true, some 100000, true, 0⟩ 10 4096 4096
      = .ok ⟨4096, 10, 4096⟩
    ∧ (mapWindow 10 4096 4096).1 + (mapWindow 10 4096 4096).2 < 10 + 4096 := by
  constructor
  · rfl
  · decide

/-! ## Claim C4: the returned region's pointer and length -/

/-- C4: whenever `mapFile` succeeds, the returned region's data pointer is the
mapping base advanced by `startOffset % pageSize`, and its length is the
requested `length` (for a non-negative request) or the `fstat` file size (for
the `-1` sentinel); and with the `-1` sentinel a failing file-size query is
reported as an I/O error (status 400). -/
theorem mapFile_C4 :
    (∀ (env : FileEnv) (startOffset : Nat) (length : Int) (page : Nat)
        (r : FrozenMemoryRegion),
      mapFile env startOffset length page = .ok r →
        r.data = env.base + startOffset % page
        ∧ (0 ≤ length → r.length = length.toNat)
        ∧ (length = -1 → ∃ sz, env.statSize = some sz ∧ r.length = sz))
    ∧ (∀ (env : FileEnv) (startOffset : Nat) (page : Nat),
      env.scheme = "file" → env.openOk = true → env.statSize = none →
        mapFile env startOffset (-1) page = .error ⟨400, .statFailed⟩) := by
  constructor
  · intro env startOffset length page r h
    rw [mapFile] at h
    by_cases h1 : env.scheme ≠ "file"
    · rw [if_pos h1] at h; exact Except.noConfusion h
    rw [if_neg h1] at h
    by_cases h2 : env.openOk = false
    · rw [if_pos h2] at h; exact Except.noConfusion h
    rw [if_neg h2] at h
    cases heq : resolveLength length env.statSize with
    | error e => rw [heq] at h; exact Except.noConfusion h
    | ok len =>
      simp only [heq] at h
      by_cases h3 : env.mmapOk = false
      · rw [if_pos h3] at h; exact Except.noConfusion h
      · rw [if_neg h3] at h
        injection h with h
        subst h
        refine ⟨rfl, ?_, ?_⟩
        · intro hpos
          unfold resolveLength at heq
          split at heq
          · omega
          · injection heq with heq
            simp [heq]
        · intro hneg
          unfold resolveLength at heq
          rw [if_pos hneg] at heq
          cases hs : env.statSize with
          | none => rw [hs] at heq; exact Except.noConfusion heq
          | some sz =>
            rw [hs] at heq
            injection heq with heq
            exact ⟨sz, rfl, heq.symm⟩
  · intro env startOffset page h1 h2 h3
    unfold mapFile resolveLength
    simp [h1, h2, h3]

/-- concrete instantiations of `mapFile_C4`: a successful map at
`startOffset = 3`, sentinel length, page size 4, file size 5, base 1000; and
a failing `fstat` with the sentinel length. -/
theorem mapFile_C4_witness :
    ((⟨8, 1003, 5⟩ : FrozenMemoryRegion).data = 1000 + 3 % 4
      ∧ (0 ≤ (-1 : Int) → (⟨8, 1003, 5⟩ : FrozenMemoryRegion).length = (-1 : Int).toNat)
      ∧ ((-1 : Int) = -1 →
          ∃ sz, (some 5 : Option Nat) = some sz
            ∧ (⟨8, 1003, 5⟩ : FrozenMemoryRegion).length = sz))
    ∧ mapFile ⟨"file", true, none, true, 1000⟩ 3 (-1) 4 = .error ⟨400, .statFailed⟩ :=
  ⟨mapFile_C4.1 ⟨"file", true, some 5, true, 1000⟩ 3 (-1) 4 ⟨8, 1003, 5⟩ rfl,
   mapFile_C4.2 ⟨"file", true, none, true, 1000⟩ 3 4 rfl rfl rfl⟩

/-! ## Claim C9: non-"file" schemes -/

/-- C9 counterexample: a non-"file" scheme does fail immediately with the
unsupported-source error, but the `AnnotatedException` carries status code
500 — a server-side error code, not the client-input code 400 that the rest
of the file uses for caller mistakes — so the claim's "reported to the caller
as a client-input error" is false. -/
theorem mapFile_scheme_counterexample :
    mapFile ⟨"http", true, some 10, true, 0⟩ 0 (-1) 4096
      = .error ⟨500, MapErrKind.unsupportedScheme⟩
    ∧ (500 : Nat) ≠ 400 :=
  ⟨rfl, by decide⟩

/-- C9 amended: for every file reference whose scheme is not "file", `mapFile`
fails immediately with an unsupported-source error carrying status code 500
(a server-side error code), before opening, statting, or mapping anything —
the result is this error whatever `openOk`, `statSize` and `mmapOk` are. -/
theorem mapFile_scheme_amended (env : FileEnv) (startOffset : Nat)
    (length : Int) (page : Nat) (h : env.scheme ≠ "file") :
    mapFile env startOffset length page
      = .error ⟨500, MapErrKind.unsupportedScheme⟩ := by
  unfold mapFile
  rw [if_pos h]

/-- concrete instantiation of `mapFile_scheme_amended` at scheme "ftp", with
open, stat and mmap all set to fail (showing none of them is consulted). -/
theorem mapFile_scheme_amended_witness :
    mapFile ⟨"ftp", false, none, false, 3⟩ 7 (-1) 4096
      = .error ⟨500, MapErrKind.unsupportedScheme⟩ :=
  mapFile_scheme_amended ⟨"ftp", false, none, false, 3⟩ 7 (-1) 4096 (by decide)

/-! ## Claim C5: MemorySerializer::freeze is zero-copy -/

/-- C5: freezing a mutable region returns a frozen region with exactly the
mutable region's ownership handle, data pointer and length — the same storage
is viewed, nothing is copied or allocated. -/
theorem freeze_C5 (region : MutableMemoryRegion) :
    (MemorySerializer.freeze region).handle = region.handle
    ∧ (MemorySerializer.freeze region).data = region.data
    ∧ (MemorySerializer.freeze region).length = region.length :=
  ⟨rfl, rfl, rfl⟩

/-! ## Structured serializer / reconstituter (lines 245-394)

The backend operations `newEntry`, `getRegion`, `getStructure` are pure
virtuals declared in the missing header and implemented per backend; only
the derived logic lives in `memory_region.cc`. -/

/-- Modelled from the spec: the tree of named entries behind a structured
serializer / reconstituter ("named entries, each identified by a single path
segment"; missing: the backend implementing `newEntry` / `getRegion` /
`getStructure`).  A `node` holds named children; a `blob` holds the bytes of
a region entry. -/
inductive STree where
  | node : List (String × STree) → STree
  | blob : List Nat → STree

/-- Modelled from the spec: locate a child entry by name within a node's
child list ("consumers locate by name, not position"). -/
def lookupChild : List (String × STree) → String → Option STree
  | [], _ => none
  | (k, v) :: rest, n => if k == n then some v else lookupChild rest n

/-- Modelled from the spec: the backend's `getRegion(name)` — the named child
entry's bytes, when that child is a region entry. -/
def getRegion (t : STree) (n : String) : Option (List Nat) :=
  match t with
  | .node cs =>
    match lookupChild cs n with
    | some (.blob b) => some b
    | _ => none
  | .blob _ => none

/-- Modelled from the spec: the backend's `getStructure(name)` — the child
reconstituter for the named entry. -/
def getStructure (t : STree) (n : String) : Option STree :=
  match t with
  | .node cs => lookupChild cs n
  | .blob _ => none

/-! ## Claim C3: StructuredSerializer::newObject -/

/-- StructuredSerializer::newObject (lines 253-271) acting on the current
node's child-entry list: the value is rendered to text by the descriptor
(opaque here: `printed` is the rendered byte string), then
`auto entry = newEntry("md");` creates a child named "md" directly under the
node, and `allocateWritable` + `memcpy` + `freeze` store the rendered bytes
in it.  The `name` argument is not used by the function body. -/
def newObject (children : List (String × STree)) (nm : String)
    (printed : List Nat) : List (String × STree) :=
  children ++ [("md", STree.blob printed)]

/-- C3 counterexample: calling `newObject` with entry name "foo" on a node
with no children stores the rendered bytes in a child named "md" directly
under that node; no entry named "foo" exists at all, so the bytes are not in
a "md" child under the entry identified by the given name. -/
theorem newObject_counterexample :
    newObject [] "foo" [1, 2] = [("md", STree.blob [1, 2])]
    ∧ ¬ ∃ sub, lookupChild (newObject [] "foo" [1, 2]) "foo" = some sub := by
  refine ⟨rfl, ?_⟩
  rintro ⟨sub, hsub⟩
  simp [newObject, lookupChild] at hsub

/-- C3 amended: `newObject(name, value, descriptor)` renders the value via the
descriptor and appends the encoded bytes as a child named "md" directly under
the node it was called on, leaving the existing children unchanged; the
`name` argument does not influence where the bytes are stored. -/
theorem newObject_amended (children : List (String × STree)) (nm nm' : String)
    (printed : List Nat) :
    (newObject children nm printed).getLast? = some ("md", STree.blob printed)
    ∧ (newObject children nm printed).take children.length = children
    ∧ newObject children nm printed = newObject children nm' printed := by
  refine ⟨?_, ?_, rfl⟩
  · simp [newObject]
  · simp [newObject, List.take_left]

/-! ## Claim C6: StructuredReconstituter::getRegionRecursive -/

/-- StructuredReconstituter::getRegionRecursive (lines 283-291):
`ExcAssert(!name.empty())` (modelled as `none` on the empty path); a
single-segment path resolves with `getRegion(name.head())`; otherwise
`getStructure(name.head())->getRegionRecursive(name.tail())`. -/
def getRegionRecursive : STree → List String → Option (List Nat)
  | _, [] => none
  | t, [n] => getRegion t n
  | t, n :: rest@(_ :: _) =>
    (getStructure t n).bind fun s => getRegionRecursive s rest

/-- the chain of `getStructure` calls for the leading segments of a path,
starting from a (possibly already failed) reconstituter. -/
def descendStructure (o : Option STree) (segs : List String) : Option STree :=
  segs.foldl (fun acc s => acc.bind fun t => getStructure t s) o

theorem descendStructure_none (segs : List String) :
    descendStructure none segs = none := by
  induction segs with
  | nil => rfl
  | cons s segs ih =>
    simpa [descendStructure, List.foldl_cons] using ih

theorem getRegionRecursive_cons (t : STree) (n : String) (rest : List String)
    (h : rest ≠ []) :
    getRegionRecursive t (n :: rest)
      = (getStructure t n).bind fun s => getRegionRecursive s rest := by
  cases rest with
  | nil => exact absurd rfl h
  | cons r rs => simp [getRegionRecursive]

/-- C6: for every non-empty path, `getRegionRecursive` returns exactly what
the chain of `getStructure` calls on the leading segments followed by
`getRegion` on the last segment returns — in particular for the path
`[a, b, c]` — and it fails on the empty path. -/
theorem getRegionRecursive_C6 :
    (∀ (t : STree) (segs : List String) (lastSeg : String),
      getRegionRecursive t (segs ++ [lastSeg])
        = (descendStructure (some t) segs).bind fun u => getRegion u lastSeg)
    ∧ (∀ (t : STree) (a b c : String),
      getRegionRecursive t [a, b, c]
        = (getStructure t a).bind fun x =>
            (getStructure x b).bind fun y => getRegion y c)
    ∧ (∀ t : STree, getRegionRecursive t [] = none) := by
  have main : ∀ (segs : List String) (t : STree) (lastSeg : String),
      getRegionRecursive t (segs ++ [lastSeg])
        = (descendStructure (some t) segs).bind fun u => getRegion u lastSeg := by
    intro segs
    induction segs with
    | nil => intro t lastSeg; simp [getRegionRecursive, descendStructure]
    | cons s segs ih =>
      intro t lastSeg
      rw [List.cons_append, getRegionRecursive_cons t s _ (by simp)]
      have hds : descendStructure (some t) (s :: segs)
          = descendStructure (getStructure t s) segs := rfl
      rw [hds]
      cases hgs : getStructure t s with
      | none => simp [descendStructure_none]
      | some u => simpa using ih u lastSeg
  refine ⟨fun t segs lastSeg => main segs t lastSeg, ?_, fun t => by simp [getRegionRecursive]⟩
  intro t a b c
  have h := main [a, b] t c
  simpa [descendStructure, Option.bind_assoc] using h

/-! ## Claim C7: ReconstituteStreamHandler::seekoff -/

/-- the three seek directions of `std::ios_base::seekdir`; `end` is reserved
in Lean, so it is named `seekEnd`. -/
inductive SeekDir where
  | beg
  | cur
  | seekEnd
deriving DecidableEq

/-- ReconstituteStreamHandler::seekoff (lines 311-330), with the get area
expressed as offsets from `start` (so `eback = 0`, `egptr = length`, and the
read position `gpos` is `gptr - eback`; offsets are `Int` since `off_type` is
signed and the pointers may move anywhere).  `cur` does `gbump(off)`, `end`
does `setg(start, end + off, end)`, `beg` does `setg(start, start + off,
end)`; the function returns `gptr() - eback()`, the new position. -/
def seekoff (length : Nat) (gpos off : Int) (dir : SeekDir) : Int :=
  match dir with
  | .cur => gpos + off
  | .seekEnd => (length : Int) + off
  | .beg => off

/-- C7 counterexample: on a 4-byte region, an absolute seek to offset 9 is not
a contract error — `seekoff` performs no bounds check, returns 9 and leaves
the read position at 9, outside `[0, 4]`. -/
theorem seekoff_counterexample :
    seekoff 4 0 9 SeekDir.beg = 9 ∧ ¬ ((0 : Int) ≤ 9 ∧ (9 : Int) ≤ 4) :=
  ⟨rfl, by decide⟩

/-- C7 amended: `seekoff` performs no bounds validation at all: an absolute
seek sets the read position to `off`, a seek from the end to `length + off`,
and a relative seek to the current position plus `off`, and it returns that
position even when it lies outside `[0, length]`. -/
theorem seekoff_amended (length : Nat) (gpos off : Int) :
    seekoff length gpos off SeekDir.beg = off
    ∧ seekoff length gpos off SeekDir.seekEnd = (length : Int) + off
    ∧ seekoff length gpos off SeekDir.cur = gpos + off :=
  ⟨rfl, rfl, rfl⟩

/-! ## Claim C8: StructuredReconstituter::getObjectHelper -/

/-- StructuredReconstituter::getObjectHelper (lines 385-394): reads the named
region and builds
`Utf8StringJsonParsingContext context(entry.data(), entry.length(), "getObjectHelper")`
— the pair returned here is the context handed to
`desc->parseJson(obj, context)`: the region's bytes and the source label the
context reports in parse errors. -/
def getObjectHelper (t : STree) (n : String) : Option (List Nat × String) :=
  (getRegion t n).map fun bytes => (bytes, "getObjectHelper")

/-- C8 counterexample: reading the entry named "foo", the parsing context is
labelled with the fixed string "getObjectHelper", which is not the entry name
"foo" — a parse error would not name the entry being read. -/
theorem getObjectHelper_counterexample :
    getObjectHelper (STree.node [("foo", STree.blob [49])]) "foo"
      = some ([49], "getObjectHelper")
    ∧ ("getObjectHelper" : String) ≠ "foo" :=
  ⟨rfl, by decide⟩

/-- C8 amended: for every entry name, the parsing context built by
`getObjectHelper` carries the named region's bytes together with the fixed
source label "getObjectHelper" — the entry name never appears in the error
context. -/
theorem getObjectHelper_amended (t : STree) (n : String)
    (p : List Nat × String) (h : getObjectHelper t n = some p) :
    getRegion t n = some p.1 ∧ p.2 = "getObjectHelper" := by
  unfold getObjectHelper at h
  cases hr : getRegion t n with
  | none => rw [hr] at h; exact Option.noConfusion h
  | some b =>
    rw [hr] at h
    simp only [Option.map_some'] at h
    injection h with h
    subst h
    exact ⟨rfl, rfl⟩

/-- concrete instantiation of `getObjectHelper_amended` at the entry "bar". -/
theorem getObjectHelper_amended_witness :
    getRegion (STree.node [("bar", STree.blob [50])]) "bar" = some [50]
    ∧ ("getObjectHelper" : String) = "getObjectHelper" :=
  getObjectHelper_amended (STree.node [("bar", STree.blob [50])]) "bar"
    ([50], "getObjectHelper") rfl

/-! ## Claim C10: getStructureRecursive on the empty path -/

/-- StructuredReconstituter::getStructureRecursive (lines 370-383): a
default-null `result` and a `current` cursor starting at `this`; each loop
iteration sets `result = current->getStructure(el)` and moves `current` to
it.  The pair `(result, current)` is folded over the path; dereferencing a
null `current` is undefined behaviour in the source and is modelled as
staying null (no claim is settled on that branch).  The returned
`shared_ptr` is the final `result`: `none` models the null pointer. -/
def getStructureRecursive (t : STree) (path : List String) : Option STree :=
  (path.foldl
    (fun st el =>
      match st.2 with
      | some cur => (getStructure cur el, getStructure cur el)
      | none => (none, none))
    ((none : Option STree), (some t : Option STree))).1

/-- C10: on the empty path `getStructureRecursive` runs no loop iteration and
returns the never-assigned null pointer — it does not fail (there is no
`ExcAssert`, unlike `getRegionRecursive`) and it does not return the node it
was called on. -/
theorem getStructureRecursive_C10 :
    (∀ t : STree, getStructureRecursive t [] = none)
    ∧ (∀ t : STree, getStructureRecursive t [] ≠ some t) :=
  ⟨fun _ => rfl, fun _ h => Option.noConfusion h⟩

end MLDB
